import Mathlib

/-!
Verification development for the ThumbnailTool repository: a browser-based
3D model viewer with a viewport-to-thumbnail capture-and-compositing
pipeline.  The definitions below are shallow embeddings of the functions in
`src/viewer.js` and `src/app.js`; numeric values are modelled over `ℚ`
(JS numbers treated as exact arithmetic), colors as `Nat` codes, and DOM /
GPU side effects as explicit state records or draw-operation lists.
-/

/-! ### Asset framing (Viewer.setContent, src/viewer.js lines 273-360) -/

/-- Component-wise 3-vector of rationals, mirroring THREE.Vector3. -/
structure Vec3 where
  x : ℚ
  y : ℚ
  z : ℚ
deriving DecidableEq

/-- Axis-aligned bounding box, mirroring THREE.Box3 with corners `min` and `max`. -/
structure Box3 where
  min : Vec3
  max : Vec3
deriving DecidableEq

/-- State of the loaded root object relevant to `setContent`: its position,
its uniform scale factor (`object.scale`, kept uniform by the code, which only
ever calls `multiplyScalar` on it), and the axis-aligned hull `localBox` of its
geometry in root-local coordinates at unit scale. -/
structure Object3D where
  position : Vec3
  scaleFactor : ℚ
  localBox : Box3
deriving DecidableEq

/-- World bounding box of the root object, mirroring
`new Box3().setFromObject(object)`: for a root at `position` with uniform
positive scale `scaleFactor` over a geometry hull `localBox`, the world box is
the translated, scaled hull (valid as an AABB when `0 < scaleFactor`). -/
def setFromObject (o : Object3D) : Box3 :=
  ⟨⟨o.position.x + o.scaleFactor * o.localBox.min.x,
    o.position.y + o.scaleFactor * o.localBox.min.y,
    o.position.z + o.scaleFactor * o.localBox.min.z⟩,
   ⟨o.position.x + o.scaleFactor * o.localBox.max.x,
    o.position.y + o.scaleFactor * o.localBox.max.y,
    o.position.z + o.scaleFactor * o.localBox.max.z⟩⟩

/-- Mirrors `box.getSize(new Vector3())`: `max - min` component-wise. -/
def getSize (b : Box3) : Vec3 :=
  ⟨b.max.x - b.min.x, b.max.y - b.min.y, b.max.z - b.min.z⟩

/-- Mirrors `box.getCenter(new Vector3())`: the midpoint of the corners. -/
def getCenter (b : Box3) : Vec3 :=
  ⟨(b.min.x + b.max.x) / 2, (b.min.y + b.max.y) / 2, (b.min.z + b.max.z) / 2⟩

/-- Mirrors the binary `Math.max` on (non-NaN) numbers. -/
def mathMax (a b : ℚ) : ℚ := if a ≤ b then b else a

/-- Mirrors `const gridSize = 10` in `setContent`. -/
def gridSize : ℚ := 10

/-- Mirrors `const targetSize = gridSize * 0.5` in `setContent` (equals 5). -/
def targetSize : ℚ := gridSize * (1 / 2)

/-- Record of what the framing step did: whether the rescale branch was taken,
the scale multiplier it applied (1 when the branch was skipped), and the
`maxDimension` value it computed.  Note: Lean rational division by zero yields
0 whereas the JS division `targetSize / 0` yields Infinity, so theorems about
the degenerate case refer to `didRescale` and `maxDim`, never to the quotient. -/
structure FramingInfo where
  didRescale : Bool
  appliedScale : ℚ
  maxDim : ℚ
deriving DecidableEq

/-- Shallow embedding of the box/scale/position part of `Viewer.setContent`
(camera, controls and GUI updates are outside the data this development
tracks).  It computes the world box, takes `maxDimension` as the largest box
size component, rescales by `targetSize / maxDimension` whenever
`maxDimension !== targetSize` (recomputing the box afterwards), then shifts
the position so X/Z are centered on the box center and the box minimum Y
moves to 0. -/
def setContent (o : Object3D) : Object3D × FramingInfo :=
  let box0 := setFromObject o
  let size0 := getSize box0
  let maxDimension := mathMax size0.x (mathMax size0.y size0.z)
  if maxDimension ≠ targetSize then
    let scale := targetSize / maxDimension
    let o2 : Object3D := { o with scaleFactor := o.scaleFactor * scale }
    let box := setFromObject o2
    let center := getCenter box
    let o3 : Object3D :=
      { o2 with position := ⟨o2.position.x - center.x,
                             o2.position.y - box.min.y,
                             o2.position.z - center.z⟩ }
    (o3, ⟨true, scale, maxDimension⟩)
  else
    let center := getCenter box0
    let o3 : Object3D :=
      { o with position := ⟨o.position.x - center.x,
                            o.position.y - box0.min.y,
                            o.position.z - center.z⟩ }
    (o3, ⟨false, 1, maxDimension⟩)

/-- Largest dimension of the world bounding box of `o`, as computed by
`Math.max(boxSize.x, boxSize.y, boxSize.z)` in `setContent`. -/
def maxDimOf (o : Object3D) : ℚ :=
  mathMax (getSize (setFromObject o)).x
    (mathMax (getSize (setFromObject o)).y (getSize (setFromObject o)).z)

/-- The end-to-end scenario object of the spec: bounding box
`[-2,0,-1]` to `[2,4,1]` at unit scale and identity position. -/
def demoObject : Object3D :=
  ⟨⟨0, 0, 0⟩, 1, ⟨⟨-2, 0, -1⟩, ⟨2, 4, 1⟩⟩⟩

/-- A zero-volume (single point) scene: every box dimension is 0. -/
def pointObject : Object3D :=
  ⟨⟨0, 0, 0⟩, 1, ⟨⟨0, 0, 0⟩, ⟨0, 0, 0⟩⟩⟩

/-- C1: for every loaded scene whose bounding box has `maxDim > 0`, framing
applies the uniform scale `targetSize / maxDim` with `targetSize = 5`
(scaling up or down whenever `maxDim` differs from the target, and a no-op
factor 1 = 5/5 when it equals it), and afterwards the world bounding box has
minimum Y equal to 0 and X/Z center at the origin. -/
theorem framing_postcondition (o : Object3D)
    (hsc : 0 < o.scaleFactor)
    (hx : o.localBox.min.x ≤ o.localBox.max.x)
    (hy : o.localBox.min.y ≤ o.localBox.max.y)
    (hz : o.localBox.min.z ≤ o.localBox.max.z)
    (hmax : 0 < maxDimOf o) :
    (setContent o).2.appliedScale = targetSize / maxDimOf o ∧
    (setFromObject (setContent o).1).min.y = 0 ∧
    (getCenter (setFromObject (setContent o).1)).x = 0 ∧
    (getCenter (setFromObject (setContent o).1)).z = 0 := by
  simp only [setContent, maxDimOf]
  split_ifs with hne
  · refine ⟨rfl, ?_, ?_, ?_⟩ <;> (simp only [setFromObject, getSize, getCenter]; ring)
  · rw [not_ne_iff] at hne
    refine ⟨?_, ?_, ?_, ?_⟩
    · rw [hne]
      exact (div_self (by unfold targetSize gridSize; norm_num)).symm
    · simp only [setFromObject, getSize, getCenter]; ring
    · simp only [setFromObject, getSize, getCenter]; ring
    · simp only [setFromObject, getSize, getCenter]; ring

/-- Witness for C1 at the spec's end-to-end scenario: the box
`[-2,0,-1]` to `[2,4,1]` has `maxDim = 4` and the applied scale is `5/4`. -/
theorem framing_postcondition_witness :
    (0 < demoObject.scaleFactor ∧
      demoObject.localBox.min.x ≤ demoObject.localBox.max.x ∧
      demoObject.localBox.min.y ≤ demoObject.localBox.max.y ∧
      demoObject.localBox.min.z ≤ demoObject.localBox.max.z ∧
      0 < maxDimOf demoObject) ∧
    maxDimOf demoObject = 4 ∧
    (setContent demoObject).2.appliedScale = 5 / 4 ∧
    ((setContent demoObject).2.appliedScale = targetSize / maxDimOf demoObject ∧
      (setFromObject (setContent demoObject).1).min.y = 0 ∧
      (getCenter (setFromObject (setContent demoObject).1)).x = 0 ∧
      (getCenter (setFromObject (setContent demoObject).1)).z = 0) := by
  have h1 : 0 < demoObject.scaleFactor := by norm_num [demoObject]
  have h2 : demoObject.localBox.min.x ≤ demoObject.localBox.max.x := by norm_num [demoObject]
  have h3 : demoObject.localBox.min.y ≤ demoObject.localBox.max.y := by norm_num [demoObject]
  have h4 : demoObject.localBox.min.z ≤ demoObject.localBox.max.z := by norm_num [demoObject]
  have hmd : maxDimOf demoObject = 4 := by
    norm_num [maxDimOf, demoObject, setFromObject, getSize, mathMax]
  have h5 : 0 < maxDimOf demoObject := by rw [hmd]; norm_num
  refine ⟨⟨h1, h2, h3, h4, h5⟩, hmd, ?_, ?_⟩
  · have := (framing_postcondition demoObject h1 h2 h3 h4 h5).1
    rw [this, hmd]
    norm_num [targetSize, gridSize]
  · exact framing_postcondition demoObject h1 h2 h3 h4 h5

/-- C2 counterexample: for a zero-volume scene (`maxDim = 0`) the rescale is
NOT skipped — the branch condition `maxDimension !== targetSize` is true at
`maxDimension = 0`, so the code enters the rescale branch, contrary to the
claim that `maxDim` is guarded against 0 and the rescale skipped. -/
theorem zero_maxdim_rescale_not_skipped :
    (setContent pointObject).2.didRescale = true := by
  norm_num [setContent, pointObject, setFromObject, getSize, mathMax, targetSize, gridSize]

/-- C2 amended: the code contains no zero guard.  For every scene whose
bounding box has `maxDim = 0`, the rescale branch is taken (0 differs from
the target 5) and the scale expression divides `targetSize` by the recorded
`maxDim = 0` — in JS this division yields Infinity silently, so framing still
raises no error, but the rescale is not skipped and the resulting scale is
not finite. -/
theorem zero_maxdim_guard_absent (o : Object3D) (h : maxDimOf o = 0) :
    (setContent o).2.didRescale = true ∧ (setContent o).2.maxDim = 0 := by
  simp only [setContent, maxDimOf] at h ⊢
  rw [h]
  rw [if_pos (show (0 : ℚ) ≠ targetSize by unfold targetSize gridSize; norm_num)]
  exact ⟨rfl, rfl⟩

/-- Witness for the amended C2 at the single-point scene. -/
theorem zero_maxdim_guard_absent_witness :
    maxDimOf pointObject = 0 ∧
    ((setContent pointObject).2.didRescale = true ∧
      (setContent pointObject).2.maxDim = 0) := by
  have h : maxDimOf pointObject = 0 := by
    norm_num [maxDimOf, pointObject, setFromObject, getSize, mathMax]
  exact ⟨h, zero_maxdim_guard_absent pointObject h⟩

/-! ### Capture pipeline (updateThumbnailFromViewport, src/app.js lines 576-633) -/

/-- Scene/renderer state touched by the capture routine: the scene background
reference (`none` models the JS `null`), the renderer clear color and clear
alpha, whether the grid helper object exists, and its visibility flag. -/
structure CaptureState where
  background : Option Nat
  clearColor : Nat
  clearAlpha : ℚ
  gridPresent : Bool
  gridVisible : Bool
deriving DecidableEq

/-- The application background color `0x121212`, set on the renderer at
`init` and re-set after every capture. -/
def appBgColor : Nat := 0x121212

/-- Shallow embedding of the state mutations of the capture body of
`updateThumbnailFromViewport` (the part after the throttle check): save the
background, null it, save and hide the grid visibility when the grid helper
exists, set a fully transparent clear color, render and read back the canvas
(which mutates none of these fields), then restore the background, re-set the
opaque `0x121212` clear color, and restore the saved grid visibility. -/
def updateThumbnailFromViewport (s : CaptureState) : CaptureState :=
  let originalBackground := s.background
  let gridWasVisible := if s.gridPresent then s.gridVisible else false
  let s1 := { s with background := none }
  let s2 := if s1.gridPresent then { s1 with gridVisible := false } else s1
  let s3 := { s2 with clearColor := 0, clearAlpha := 0 }
  let s4 := { s3 with background := originalBackground }
  let s5 := { s4 with clearColor := appBgColor, clearAlpha := 1 }
  if s5.gridPresent then { s5 with gridVisible := gridWasVisible } else s5

/-- C3: for every executed capture, after the capture routine completes the
scene background reference, the renderer clear color (given that before the
capture it holds the value `init` sets, which is the only other writer), and
the grid visibility flag equal their values immediately before the capture;
the grid-on and grid-off initial states are both instances of the arbitrary
`gridVisible`. -/
theorem capture_restores_state (s : CaptureState)
    (h : s.clearColor = appBgColor ∧ s.clearAlpha = 1) :
    (updateThumbnailFromViewport s).background = s.background ∧
    (updateThumbnailFromViewport s).clearColor = s.clearColor ∧
    (updateThumbnailFromViewport s).clearAlpha = s.clearAlpha ∧
    (updateThumbnailFromViewport s).gridVisible = s.gridVisible := by
  obtain ⟨h1, h2⟩ := h
  by_cases hg : s.gridPresent <;>
    simp [updateThumbnailFromViewport, h1, h2, hg]

/-- Grid-on pre-capture state for the C3 witness. -/
def capDemoOn : CaptureState := ⟨some 7, appBgColor, 1, true, true⟩

/-- Grid-off pre-capture state for the C3 witness. -/
def capDemoOff : CaptureState := ⟨none, appBgColor, 1, true, false⟩

/-- Witness for C3, covering both a grid-on and a grid-off initial state. -/
theorem capture_restores_state_witness :
    ((capDemoOn.clearColor = appBgColor ∧ capDemoOn.clearAlpha = 1) ∧
      (updateThumbnailFromViewport capDemoOn).background = capDemoOn.background ∧
      (updateThumbnailFromViewport capDemoOn).clearColor = capDemoOn.clearColor ∧
      (updateThumbnailFromViewport capDemoOn).clearAlpha = capDemoOn.clearAlpha ∧
      (updateThumbnailFromViewport capDemoOn).gridVisible = capDemoOn.gridVisible) ∧
    ((capDemoOff.clearColor = appBgColor ∧ capDemoOff.clearAlpha = 1) ∧
      (updateThumbnailFromViewport capDemoOff).background = capDemoOff.background ∧
      (updateThumbnailFromViewport capDemoOff).clearColor = capDemoOff.clearColor ∧
      (updateThumbnailFromViewport capDemoOff).clearAlpha = capDemoOff.clearAlpha ∧
      (updateThumbnailFromViewport capDemoOff).gridVisible = capDemoOff.gridVisible) := by
  have hOn : capDemoOn.clearColor = appBgColor ∧ capDemoOn.clearAlpha = 1 := ⟨rfl, rfl⟩
  have hOff : capDemoOff.clearColor = appBgColor ∧ capDemoOff.clearAlpha = 1 := ⟨rfl, rfl⟩
  exact ⟨⟨hOn, capture_restores_state capDemoOn hOn⟩,
         ⟨hOff, capture_restores_state capDemoOff hOff⟩⟩

/-! ### Capture throttling (src/app.js lines 582-588) -/

/-- Mirrors `const THUMBNAIL_UPDATE_INTERVAL = 100` (milliseconds). -/
def THUMBNAIL_UPDATE_INTERVAL : Int := 100

/-- One throttle decision: with `now = Date.now()`, the routine returns
without effect when `now - lastThumbnailUpdate < THUMBNAIL_UPDATE_INTERVAL`
and otherwise records `lastThumbnailUpdate = now` and captures.  The first
component is whether a capture executed, the second the resulting
`lastThumbnailUpdate`. -/
def throttleStep (now lastUpdate : Int) : Bool × Int :=
  if now - lastUpdate < THUMBNAIL_UPDATE_INTERVAL then (false, lastUpdate)
  else (true, now)

/-- Number of captures executed over a sequence of request timestamps,
starting from a given `lastThumbnailUpdate` value. -/
def executedCaptures : List Int → Int → Nat
  | [], _ => 0
  | t :: ts, lastUpdate =>
    let r := throttleStep t lastUpdate
    (if r.1 then 1 else 0) + executedCaptures ts r.2

/-- All requests in the list are spaced at least one throttle interval apart,
with the first also at least one interval after the initial
`lastThumbnailUpdate`. -/
def gapsBeyondInterval : Int → List Int → Bool
  | _, [] => true
  | lastUpdate, t :: ts =>
    (THUMBNAIL_UPDATE_INTERVAL ≤ t - lastUpdate) && gapsBeyondInterval t ts

lemma executedCaptures_of_all_early (ts : List Int) (lastUpdate : Int)
    (h : ∀ t ∈ ts, t - lastUpdate < THUMBNAIL_UPDATE_INTERVAL) :
    executedCaptures ts lastUpdate = 0 := by
  induction ts with
  | nil => rfl
  | cons t ts ih =>
    have ht := h t (List.mem_cons_self t ts)
    simp only [executedCaptures, throttleStep, if_pos ht]
    simpa using ih fun a ha => h a (List.mem_cons_of_mem t ha)

lemma executedCaptures_window (ts : List Int) (lastUpdate : Int)
    (h : ∀ a ∈ ts, ∀ b ∈ ts, a - b < THUMBNAIL_UPDATE_INTERVAL) :
    executedCaptures ts lastUpdate ≤ 1 := by
  induction ts generalizing lastUpdate with
  | nil => simp [executedCaptures]
  | cons t ts ih =>
    by_cases hearly : t - lastUpdate < THUMBNAIL_UPDATE_INTERVAL
    · simp only [executedCaptures, throttleStep, if_pos hearly]
      simpa using ih lastUpdate fun a ha b hb =>
        h a (List.mem_cons_of_mem t ha) b (List.mem_cons_of_mem t hb)
    · simp only [executedCaptures, throttleStep, if_neg hearly]
      have hrest : executedCaptures ts t = 0 :=
        executedCaptures_of_all_early ts t fun a ha =>
          h a (List.mem_cons_of_mem t ha) t (List.mem_cons_self t ts)
      simp [hrest]

lemma executedCaptures_spaced (ts : List Int) (lastUpdate : Int)
    (h : gapsBeyondInterval lastUpdate ts = true) :
    executedCaptures ts lastUpdate = ts.length := by
  induction ts generalizing lastUpdate with
  | nil => rfl
  | cons t ts ih =>
    simp only [gapsBeyondInterval, Bool.and_eq_true] at h
    have hlate : ¬(t - lastUpdate < THUMBNAIL_UPDATE_INTERVAL) := by
      have := of_decide_eq_true h.1
      omega
    simp only [executedCaptures, throttleStep, if_neg hlate, List.length_cons]
    simp [ih t h.2, Nat.add_comm]

/-- C5: requests whose timestamps all fall within one 100ms throttle interval
execute at most one capture (from any initial `lastThumbnailUpdate`);
requests spaced at least one interval apart (hence all spacings strictly
beyond it) each execute; and an early request is dropped as a pure no-op —
the throttle state is left unchanged and the request contributes nothing,
with no queueing or deferral.  The interval constant is 100. -/
theorem capture_throttle :
    THUMBNAIL_UPDATE_INTERVAL = 100 ∧
    (∀ (ts : List Int) (lastUpdate : Int),
      (∀ a ∈ ts, ∀ b ∈ ts, a - b < THUMBNAIL_UPDATE_INTERVAL) →
      executedCaptures ts lastUpdate ≤ 1) ∧
    (∀ (ts : List Int) (lastUpdate : Int),
      gapsBeyondInterval lastUpdate ts = true →
      executedCaptures ts lastUpdate = ts.length) ∧
    (∀ (t lastUpdate : Int) (ts : List Int),
      t - lastUpdate < THUMBNAIL_UPDATE_INTERVAL →
      throttleStep t lastUpdate = (false, lastUpdate) ∧
      executedCaptures (t :: ts) lastUpdate = executedCaptures ts lastUpdate) := by
  refine ⟨rfl, fun ts l h => executedCaptures_window ts l h,
    fun ts l h => executedCaptures_spaced ts l h, fun t l ts h => ⟨?_, ?_⟩⟩
  · simp [throttleStep, if_pos h]
  · simp [executedCaptures, throttleStep, if_pos h]

/-- Witness for C5: three requests inside one interval yield one capture;
three requests spaced 150ms apart all capture; an early request is a no-op. -/
theorem capture_throttle_witness :
    ((∀ a ∈ [(1000 : Int), 1050, 1090], ∀ b ∈ [(1000 : Int), 1050, 1090],
        a - b < THUMBNAIL_UPDATE_INTERVAL) ∧
      executedCaptures [1000, 1050, 1090] 0 ≤ 1) ∧
    (gapsBeyondInterval 0 [100, 250, 400] = true ∧
      executedCaptures [100, 250, 400] 0 = 3) ∧
    ((1050 : Int) - 1000 < THUMBNAIL_UPDATE_INTERVAL ∧
      throttleStep 1050 1000 = (false, 1000)) := by
  have h1 : ∀ a ∈ [(1000 : Int), 1050, 1090], ∀ b ∈ [(1000 : Int), 1050, 1090],
      a - b < THUMBNAIL_UPDATE_INTERVAL := by decide
  have h2 : gapsBeyondInterval 0 [100, 250, 400] = true := by decide
  have h3 : (1050 : Int) - 1000 < THUMBNAIL_UPDATE_INTERVAL := by decide
  refine ⟨⟨h1, capture_throttle.2.1 _ 0 h1⟩,
          ⟨h2, ?_⟩,
          ⟨h3, (capture_throttle.2.2.2 1050 1000 [] h3).1⟩⟩
  have := capture_throttle.2.2.1 [100, 250, 400] 0 h2
  simpa using this

/-! ### Composite-canvas wheel zoom (onThumbnailWheel, src/app.js lines 857-893) -/

/-- Mirrors `const scaleSpeed = 0.025` (as the rational 1/40). -/
def scaleSpeed : ℚ := 1 / 40

/-- Scale update of one wheel event: scroll up (`deltaY < 0`) moves the scale
up by `scaleSpeed` clamped above at 3.0 with `Math.min`, scroll down moves it
down by `scaleSpeed` clamped below at 0.3 with `Math.max`. -/
def onThumbnailWheel (deltaY thumbnailScale : ℚ) : ℚ :=
  if deltaY < 0 then
    if thumbnailScale + scaleSpeed ≤ 3 then thumbnailScale + scaleSpeed else 3
  else
    if 3 / 10 ≤ thumbnailScale - scaleSpeed then thumbnailScale - scaleSpeed else 3 / 10

/-- The composite scale after a sequence of wheel events (given by their
`deltaY` values), starting from the initial value `thumbnailScale = 1.0`. -/
def runWheel (events : List ℚ) : ℚ :=
  events.foldl (fun s d => onThumbnailWheel d s) 1

lemma onThumbnailWheel_mem (d s : ℚ) (h1 : 3 / 10 ≤ s) (h2 : s ≤ 3) :
    3 / 10 ≤ onThumbnailWheel d s ∧ onThumbnailWheel d s ≤ 3 := by
  unfold onThumbnailWheel scaleSpeed
  split_ifs with hd hup hdown
  · constructor <;> linarith
  · constructor <;> linarith
  · constructor <;> linarith
  · constructor <;> linarith

lemma runWheel_from_mem (events : List ℚ) :
    ∀ s : ℚ, 3 / 10 ≤ s → s ≤ 3 →
      3 / 10 ≤ events.foldl (fun a d => onThumbnailWheel d a) s ∧
      events.foldl (fun a d => onThumbnailWheel d a) s ≤ 3 := by
  induction events with
  | nil => intro s h1 h2; exact ⟨h1, h2⟩
  | cons d rest ih =>
    intro s h1 h2
    have hstep := onThumbnailWheel_mem d s h1 h2
    exact ih (onThumbnailWheel d s) hstep.1 hstep.2

/-- C6: starting from the initial scale 1.0, for any finite sequence of wheel
events on the composite canvas (any directions, any count) the composite
scale stays inside the closed interval [0.3, 3.0]; each step clamps with
`Math.min` / `Math.max` rather than rejecting the event. -/
theorem scale_clamp_invariant (events : List ℚ) :
    3 / 10 ≤ runWheel events ∧ runWheel events ≤ 3 := by
  unfold runWheel
  exact runWheel_from_mem events 1 (by norm_num) (by norm_num)

/-! ### Composite-canvas drag (onThumbnailMouseDown / Move / Up, src/app.js lines 794-854) -/

/-- Drag-gesture state of the composite canvas: the current offset, whether a
drag is in progress, and the drag anchor recorded on pointer-down. -/
structure DragState where
  offsetX : ℚ
  offsetY : ℚ
  dragging : Bool
  dragStartX : ℚ
  dragStartY : ℚ
deriving DecidableEq

/-- Geometry of the canvas element: its `getBoundingClientRect()` origin and
CSS size together with the backing-store size used to convert client
coordinates to canvas coordinates. -/
structure CanvasRect where
  left : ℚ
  top : ℚ
  width : ℚ
  height : ℚ
  canvasW : ℚ
  canvasH : ℚ

/-- Pointer-down handler: records
`dragStart = scaledPointer - offset` where
`scaledPointer = (client - rect origin) * (canvas size / rect size)`. -/
def onThumbnailMouseDown (r : CanvasRect) (clientX clientY : ℚ) (s : DragState) : DragState :=
  let scaleX := r.canvasW / r.width
  let scaleY := r.canvasH / r.height
  { s with dragging := true,
           dragStartX := (clientX - r.left) * scaleX - s.offsetX,
           dragStartY := (clientY - r.top) * scaleY - s.offsetY }

/-- Pointer-move handler: when a drag is in progress, sets
`offset = scaledPointer - dragStart`; otherwise returns unchanged. -/
def onThumbnailMouseMove (r : CanvasRect) (clientX clientY : ℚ) (s : DragState) : DragState :=
  if s.dragging then
    let scaleX := r.canvasW / r.width
    let scaleY := r.canvasH / r.height
    { s with offsetX := (clientX - r.left) * scaleX - s.dragStartX,
             offsetY := (clientY - r.top) * scaleY - s.dragStartY }
  else s

/-- Pointer-up (and pointer-leave) handler: ends the drag. -/
def onThumbnailMouseUp (s : DragState) : DragState :=
  { s with dragging := false }

/-- C7: for any starting offset and any two pointer positions A and B,
the gesture pointer-down at A, move to B, move back to A, pointer-up
restores the composite offset exactly — the drag arithmetic
`dragStart = scaledPointer - offset`, `offset = scaledPointer - dragStart`
has no drift. -/
theorem offset_round_trip (r : CanvasRect) (ax ay bx byy : ℚ) (s : DragState) :
    (onThumbnailMouseUp
      (onThumbnailMouseMove r ax ay
        (onThumbnailMouseMove r bx byy
          (onThumbnailMouseDown r ax ay s)))).offsetX = s.offsetX ∧
    (onThumbnailMouseUp
      (onThumbnailMouseMove r ax ay
        (onThumbnailMouseMove r bx byy
          (onThumbnailMouseDown r ax ay s)))).offsetY = s.offsetY ∧
    (onThumbnailMouseUp
      (onThumbnailMouseMove r ax ay
        (onThumbnailMouseMove r bx byy
          (onThumbnailMouseDown r ax ay s)))).dragging = false := by
  refine ⟨?_, ?_, ?_⟩
  · simp only [onThumbnailMouseDown, onThumbnailMouseMove, onThumbnailMouseUp, if_true]
    ring
  · simp only [onThumbnailMouseDown, onThumbnailMouseMove, onThumbnailMouseUp, if_true]
    ring
  · simp only [onThumbnailMouseDown, onThumbnailMouseMove, onThumbnailMouseUp, if_true]

/-! ### Composite rendering and bake (renderThumbnail and the use-snapshot
click handler, src/app.js lines 753-791 and 935-986) -/

/-- One 2D-context drawing operation issued by `renderThumbnail`:
`clearAll` is the full-surface `clearRect`, `fillBackground` the solid
`#121212` fill, `drawGuides` the guides image at the given global alpha, and
`drawImage` the snapshot draw at the given destination rectangle. -/
inductive DrawOp where
  | clearAll
  | fillBackground
  | drawGuides (alpha : ℚ)
  | drawImage (x y w h : ℚ)
deriving DecidableEq

/-- State read by `renderThumbnail` and the use-snapshot handler: whether the
canvas element and its 2D context were obtained, the canvas backing size, the
loaded snapshot image and its size (`none` while `thumbnailImage` is unset),
whether the guides image has loaded (`guidesImage && guidesImage.complete`),
the composite transform, the guide-visibility flag, and whether snapshot data
exists (`newSnapshotData`). -/
structure ThumbState where
  canvasReady : Bool
  ctxReady : Bool
  canvasW : ℚ
  canvasH : ℚ
  image : Option (ℚ × ℚ)
  guidesLoaded : Bool
  offsetX : ℚ
  offsetY : ℚ
  scale : ℚ
  showThumbnailGuides : Bool
  newSnapshotData : Bool
deriving DecidableEq

/-- Mirrors the binary `Math.min` on (non-NaN) numbers. -/
def mathMin (a b : ℚ) : ℚ := if a ≤ b then a else b

/-- Shallow embedding of `renderThumbnail(includeGrid = null,
includeBackground = true)` as the list of drawing operations it issues.
It returns without drawing unless the canvas, the context and the snapshot
image are all present; otherwise it clears the surface, fills the background
when `includeBackground`, draws the guides at alpha 0.3 when the effective
grid flag (`includeGrid` when non-null, else `showThumbnailGuides`) is set
and the guides image is loaded, and draws the snapshot at the fit scale
`min(canvasW/imageW, canvasH/imageH)` times the composite scale, centered
and then displaced by the composite offset. -/
def renderThumbnail (s : ThumbState) (includeGrid : Option Bool)
    (includeBackground : Bool) : List DrawOp :=
  match s.canvasReady, s.ctxReady, s.image with
  | true, true, some img =>
    let shouldShowGrid := includeGrid.getD s.showThumbnailGuides
    let baseScale := mathMin (s.canvasW / img.1) (s.canvasH / img.2)
    let scaledWidth := img.1 * baseScale * s.scale
    let scaledHeight := img.2 * baseScale * s.scale
    let centerX := (s.canvasW - scaledWidth) / 2
    let centerY := (s.canvasH - scaledHeight) / 2
    [DrawOp.clearAll]
      ++ (if includeBackground then [DrawOp.fillBackground] else [])
      ++ (if shouldShowGrid && s.guidesLoaded then [DrawOp.drawGuides (3 / 10)] else [])
      ++ [DrawOp.drawImage (centerX + s.offsetX) (centerY + s.offsetY)
            scaledWidth scaledHeight]
  | _, _, _ => []

/-- Effect of one drawing operation on the surface contents, the contents
being represented by the list of operations still visible on the surface:
`clearRect` over the whole surface erases everything, any other operation
paints on top. -/
def applyOp (surface : List DrawOp) (op : DrawOp) : List DrawOp :=
  match op with
  | DrawOp.clearAll => []
  | op => surface ++ [op]

/-- Runs a list of drawing operations over the surface. -/
def applyOps (surface ops : List DrawOp) : List DrawOp :=
  List.foldl applyOp surface ops

/-- Result of the use-snapshot click handler: the resulting module state, the
operations of the transparent export render, the operations of the final
interactive re-render, and whether an export raster was read back. -/
structure BakeResult where
  post : ThumbState
  exportOps : List DrawOp
  finalOps : List DrawOp
  exported : Bool
deriving DecidableEq

/-- Shallow embedding of the use-snapshot click handler: when
`newSnapshotData && thumbnailCanvas && thumbnailCtx` it renders the
composite with `renderThumbnail(false, false)`, reads the canvas back with
`toDataURL` (the export), then calls `renderThumbnail()` again to restore
the interactive view.  The handler writes only DOM display properties
(button visibility, the thumbnail `img` source); no field of `ThumbState`
is assigned, so the state passes through unchanged. -/
def useSnapshotClick (s : ThumbState) : BakeResult :=
  if s.newSnapshotData && s.canvasReady && s.ctxReady then
    { post := s,
      exportOps := renderThumbnail s (some false) false,
      finalOps := renderThumbnail s none true,
      exported := true }
  else
    { post := s, exportOps := [], finalOps := [], exported := false }

/-- C4: the bake renders the composite with guides and background both
suppressed, reads back the surface, and immediately re-renders the
interactive composite: after `useSnapshotClick` the transform state is
unchanged and the final render equals the interactive render
(`renderThumbnail` with default arguments) of the state immediately before
the bake — same offset, same scale, same snapshot — with the background
filled and, whenever the guide layer is enabled and loaded, the guides
drawn. -/
theorem bake_restores_view (s : ThumbState)
    (h : s.newSnapshotData = true ∧ s.canvasReady = true ∧ s.ctxReady = true) :
    (useSnapshotClick s).exported = true ∧
    (useSnapshotClick s).post = s ∧
    (useSnapshotClick s).exportOps = renderThumbnail s (some false) false ∧
    (∀ a, DrawOp.drawGuides a ∉ (useSnapshotClick s).exportOps) ∧
    DrawOp.fillBackground ∉ (useSnapshotClick s).exportOps ∧
    (useSnapshotClick s).finalOps = renderThumbnail s none true ∧
    (s.image.isSome = true →
      DrawOp.fillBackground ∈ (useSnapshotClick s).finalOps ∧
      (s.showThumbnailGuides = true → s.guidesLoaded = true →
        DrawOp.drawGuides (3 / 10) ∈ (useSnapshotClick s).finalOps)) := by
  obtain ⟨h1, h2, h3⟩ := h
  have hguard : (s.newSnapshotData && s.canvasReady && s.ctxReady) = true := by
    rw [h1, h2, h3]; rfl
  refine ⟨?_, ?_, ?_, ?_, ?_, ?_, ?_⟩
  · simp [useSnapshotClick, hguard]
  · simp [useSnapshotClick, hguard]
  · simp [useSnapshotClick, hguard]
  · intro a
    simp only [useSnapshotClick, hguard, if_true]
    match himg : s.image with
    | none => simp [renderThumbnail, h2, h3, himg]
    | some img => simp [renderThumbnail, h2, h3, himg]
  · simp only [useSnapshotClick, hguard, if_true]
    match himg : s.image with
    | none => simp [renderThumbnail, h2, h3, himg]
    | some img => simp [renderThumbnail, h2, h3, himg]
  · simp [useSnapshotClick, hguard]
  · intro himgsome
    obtain ⟨img, himg⟩ := Option.isSome_iff_exists.mp himgsome
    constructor
    · simp [useSnapshotClick, hguard, renderThumbnail, h1, h2, h3, himg]
    · intro hg hl
      simp [useSnapshotClick, hguard, renderThumbnail, h1, h2, h3, himg, hg, hl]

/-- Pre-bake state used by the C4 witness: a 100-by-100 snapshot on a
600-by-600 canvas with guides enabled. -/
def bakeDemo : ThumbState :=
  ⟨true, true, 600, 600, some (100, 100), true, 10, -5, 2, true, true⟩

/-- Witness for C4 at `bakeDemo`. -/
theorem bake_restores_view_witness :
    (bakeDemo.newSnapshotData = true ∧ bakeDemo.canvasReady = true ∧
      bakeDemo.ctxReady = true) ∧
    ((useSnapshotClick bakeDemo).exported = true ∧
      (useSnapshotClick bakeDemo).post = bakeDemo ∧
      (useSnapshotClick bakeDemo).exportOps =
        renderThumbnail bakeDemo (some false) false ∧
      (∀ a, DrawOp.drawGuides a ∉ (useSnapshotClick bakeDemo).exportOps) ∧
      DrawOp.fillBackground ∉ (useSnapshotClick bakeDemo).exportOps ∧
      (useSnapshotClick bakeDemo).finalOps = renderThumbnail bakeDemo none true ∧
      (bakeDemo.image.isSome = true →
        DrawOp.fillBackground ∈ (useSnapshotClick bakeDemo).finalOps ∧
        (bakeDemo.showThumbnailGuides = true → bakeDemo.guidesLoaded = true →
          DrawOp.drawGuides (3 / 10) ∈ (useSnapshotClick bakeDemo).finalOps))) :=
  ⟨⟨rfl, rfl, rfl⟩, bake_restores_view bakeDemo ⟨rfl, rfl, rfl⟩⟩

/-- C10: whenever `renderThumbnail` is invoked while no snapshot image has
been set, or the canvas or its 2D context is not initialized, it returns
immediately without issuing any drawing operation — in particular the
full-surface clear does not run — so the surface pixels are left exactly
unchanged. -/
theorem renderThumbnail_guard (s : ThumbState) (includeGrid : Option Bool)
    (includeBackground : Bool)
    (h : s.image = none ∨ s.canvasReady = false ∨ s.ctxReady = false) :
    renderThumbnail s includeGrid includeBackground = [] ∧
    ∀ surface : List DrawOp,
      applyOps surface (renderThumbnail s includeGrid includeBackground) = surface := by
  have hops : renderThumbnail s includeGrid includeBackground = [] := by
    unfold renderThumbnail
    rcases h with h | h | h <;> rw [h] <;>
      cases hc : s.canvasReady <;> cases hx : s.ctxReady <;>
        cases hi : s.image <;> rfl
  exact ⟨hops, fun surface => by rw [hops]; rfl⟩

/-- State with a canvas and context but no snapshot image yet, for the C10
witness. -/
def noImageState : ThumbState :=
  ⟨true, true, 600, 600, none, true, 0, 0, 1, true, false⟩

/-- Witness for C10 at `noImageState`: no operation is issued and a sample
surface is unchanged. -/
theorem renderThumbnail_guard_witness :
    (noImageState.image = none ∨ noImageState.canvasReady = false ∨
      noImageState.ctxReady = false) ∧
    (renderThumbnail noImageState none true = [] ∧
      ∀ surface : List DrawOp,
        applyOps surface (renderThumbnail noImageState none true) = surface) :=
  ⟨Or.inl rfl, renderThumbnail_guard noImageState none true (Or.inl rfl)⟩

/-! ### Sub-resource URL resolution (Viewer.load, src/viewer.js lines 204-267) -/

/-- Value of a hexadecimal digit character, or `none`. -/
def hexDigitVal (c : Char) : Option Nat :=
  if '0' ≤ c ∧ c ≤ '9' then some (c.toNat - '0'.toNat)
  else if 'a' ≤ c ∧ c ≤ 'f' then some (c.toNat - 'a'.toNat + 10)
  else if 'A' ≤ c ∧ c ≤ 'F' then some (c.toNat - 'A'.toNat + 10)
  else none

/-- Character codes whose percent escapes the `decodeURI` builtin leaves
intact (the URI-reserved set). -/
def uriReservedCode (n : Nat) : Bool :=
  ([';', '/', '?', ':', '@', '&', '=', '+', '$', ',', '#'] : List Char).contains
    (Char.ofNat n)

/-- ASCII fragment of the `decodeURI` builtin on a character list: a percent
escape of an unreserved ASCII code is decoded to that character; escapes of
reserved codes and multi-byte (non-ASCII) escapes are left intact, as
`decodeURI` leaves them; a misformed percent sequence is kept literally
(where the real builtin would raise `URIError`; no theorem below depends on
the misformed case). -/
def decodeURIAux : List Char → List Char
  | [] => []
  | c :: rest =>
    if c = '%' then
      match rest with
      | h1 :: h2 :: rest2 =>
        match hexDigitVal h1, hexDigitVal h2 with
        | some a, some b =>
          let n := 16 * a + b
          if n < 128 && !(uriReservedCode n) then Char.ofNat n :: decodeURIAux rest2
          else '%' :: h1 :: h2 :: decodeURIAux rest2
        | _, _ => '%' :: h1 :: h2 :: decodeURIAux rest2
      | [] => ['%']
      | [h1] => ['%', h1]
    else c :: decodeURIAux rest

/-- Boolean prefix test on character lists. -/
def leadsWith : List Char → List Char → Bool
  | [], _ => true
  | _ :: _, [] => false
  | p :: ps, c :: cs => p == c && leadsWith ps cs

/-- Mirrors the JS `String.prototype.replace` with a plain-string pattern and
empty replacement: removes the first occurrence of `pat`, scanning from the
left (a no-op when `pat` does not occur). -/
def removeFirstOcc : List Char → List Char → List Char
  | [], _ => []
  | c :: rest, pat =>
    if leadsWith pat (c :: rest) then (c :: rest).drop pat.length
    else c :: removeFirstOcc rest pat

/-- Mirrors the regex replace `.replace(/^(\.?\/)/, '')`: removes a leading
dot-slash or a leading slash. -/
def stripLeadingSlashDot : List Char → List Char
  | '.' :: '/' :: rest => rest
  | '/' :: rest => rest
  | l => l

/-- The URL normalization of the `setURLModifier` callback in `Viewer.load`:
`rootPath + decodeURI(url).replace(baseURL, '').replace(/^(\.?\/)/, '')`. -/
def normalizedAssetURL (rootPath baseURL url : String) : String :=
  rootPath ++
    String.mk (stripLeadingSlashDot (removeFirstOcc (decodeURIAux url.data) baseURL.data))

/-- Result of resolving one sub-resource URL: a freshly created temporary
blob reference URL for the asset-map entry at the given normalized key, or
the URL handed to normal network resolution. -/
inductive ResolvedURL where
  | blobRef (key : String)
  | network (url : String)
deriving DecidableEq

/-- Shallow embedding of the `setURLModifier` callback: normalize the URL
and look it up in `assetMap` (modelled by its key list); on a hit, create a
blob URL for the entry (`URL.createObjectURL`), record it in `blobURLs`
(the second component), and return it; on a miss return `(path || '') + url`
— the `LoadingManager` invokes the modifier with no `path` argument, so
`pathArg` is `none` in every actual call. -/
def setURLModifier (rootPath baseURL : String) (assetMap : List String)
    (pathArg : Option String) (url : String) : ResolvedURL × List String :=
  let normalizedURL := normalizedAssetURL rootPath baseURL url
  if assetMap.contains normalizedURL then
    (ResolvedURL.blobRef normalizedURL, [normalizedURL])
  else
    (ResolvedURL.network ((pathArg.getD "") ++ url), [])

/-- Resolution of all sub-resource URLs of one load: the resolved values and
the accumulated `blobURLs` list. -/
def resolveAll (rootPath baseURL : String) (assetMap : List String)
    (urls : List String) : List ResolvedURL × List String :=
  urls.foldl
    (fun acc u =>
      let r := setURLModifier rootPath baseURL assetMap none u
      (acc.1 ++ [r.1], acc.2 ++ r.2))
    ([], [])

/-- Blob URLs still alive after the given revocations; the `onLoad` handler
runs `blobURLs.forEach(URL.revokeObjectURL)`, i.e. revokes the whole created
list. -/
def outstandingBlobURLs (created revoked : List String) : List String :=
  created.filter (fun u => !(revoked.contains u))

lemma decodeURIAux_no_percent (l : List Char) (h : ∀ c ∈ l, c ≠ '%') :
    decodeURIAux l = l := by
  induction l with
  | nil => rfl
  | cons c rest ih =>
    have hc : c ≠ '%' := h c (List.mem_cons_self c rest)
    rw [decodeURIAux.eq_def]
    dsimp only
    rw [if_neg hc, ih fun a ha => h a (List.mem_cons_of_mem c ha)]

lemma leadsWith_append (p t : List Char) : leadsWith p (p ++ t) = true := by
  induction p with
  | nil => rfl
  | cons c ps ih => simp [leadsWith, ih]

lemma drop_length_append (p t : List Char) : (p ++ t).drop p.length = t := by
  induction p with
  | nil => rfl
  | cons c ps ih => simpa using ih

lemma removeFirstOcc_append (p t : List Char) : removeFirstOcc (p ++ t) p = t := by
  cases p with
  | nil =>
    cases t with
    | nil => rfl
    | cons c r => simp [removeFirstOcc, leadsWith]
  | cons c ps =>
    have hl : leadsWith (c :: ps) (c :: ps ++ t) = true := leadsWith_append (c :: ps) t
    have hd : List.drop (c :: ps).length (c :: ps ++ t) = t := drop_length_append (c :: ps) t
    simp only [List.cons_append] at hl hd ⊢
    rw [removeFirstOcc, if_pos hl, hd]

lemma filter_not_contains_self (l : List String) :
    l.filter (fun u => !(l.contains u)) = [] := by
  rw [List.filter_eq_nil_iff]
  intro a ha
  have hc : l.contains a = true := by
    rw [List.contains_iff_exists_mem_beq]
    exact ⟨a, ha, by simp⟩
  simp only [hc]
  decide

/-- C8: the sub-resource resolver normalizes every URL by decoding percent
escapes, removing the base URL (its first occurrence, which for a prefixed
URL strips the prefix), removing a leading dot-slash, and prepending the
root path; a normalized URL found in `assetMap` resolves to a freshly
created temporary blob reference URL which is recorded for revocation and
revoked when the load completes (no blob URL outstanding afterwards), and a
miss passes the URL through unmodified to network resolution. -/
theorem asset_url_resolution :
    (∀ (rootPath baseURL : String) (assetMap : List String)
        (pathArg : Option String) (url : String),
      assetMap.contains (normalizedAssetURL rootPath baseURL url) = true →
      setURLModifier rootPath baseURL assetMap pathArg url =
        (ResolvedURL.blobRef (normalizedAssetURL rootPath baseURL url),
         [normalizedAssetURL rootPath baseURL url])) ∧
    (∀ (rootPath baseURL : String) (assetMap : List String) (url : String),
      assetMap.contains (normalizedAssetURL rootPath baseURL url) = false →
      setURLModifier rootPath baseURL assetMap none url =
        (ResolvedURL.network url, [])) ∧
    (∀ rootPath baseURL rest : String,
      (∀ c ∈ baseURL.data, c ≠ '%') → (∀ c ∈ rest.data, c ≠ '%') →
      normalizedAssetURL rootPath baseURL (baseURL ++ "./" ++ rest) =
        rootPath ++ rest) ∧
    (∀ (rootPath baseURL : String) (assetMap : List String) (urls : List String),
      outstandingBlobURLs (resolveAll rootPath baseURL assetMap urls).2
        (resolveAll rootPath baseURL assetMap urls).2 = []) := by
  refine ⟨?_, ?_, ?_, ?_⟩
  · intro rootPath baseURL assetMap pathArg url h
    have hmem : normalizedAssetURL rootPath baseURL url ∈ assetMap := by
      simpa using h
    simp [setURLModifier, hmem]
  · intro rootPath baseURL assetMap url h
    have hmem : normalizedAssetURL rootPath baseURL url ∉ assetMap := by
      simpa using h
    simp only [setURLModifier]
    rw [if_neg (by simpa using hmem)]
    rfl
  · intro rootPath baseURL rest hb hr
    have hdata : (baseURL ++ "./" ++ rest).data =
        baseURL.data ++ ('.' :: '/' :: rest.data) := by
      simp [String.data_append]
    have hnp : ∀ c ∈ (baseURL ++ "./" ++ rest).data, c ≠ '%' := by
      rw [hdata]
      intro c hc
      rcases List.mem_append.mp hc with h1 | h2
      · exact hb c h1
      · rcases List.mem_cons.mp h2 with h3 | h4
        · rw [h3]; decide
        · rcases List.mem_cons.mp h4 with h5 | h6
          · rw [h5]; decide
          · exact hr c h6
    unfold normalizedAssetURL
    rw [decodeURIAux_no_percent _ hnp, hdata, removeFirstOcc_append]
    rfl
  · intro rootPath baseURL assetMap urls
    exact filter_not_contains_self _

/-- Witness for C8: a percent-escaped texture URL under the base URL is
normalized and substituted by a blob reference; a foreign URL passes through
unmodified; the normalization factors as claimed; all created blob URLs are
revoked after the load. -/
theorem asset_url_resolution_witness :
    ((["models/textures/wood floor.png"] : List String).contains
        (normalizedAssetURL "models/" "https://cdn.example.com/"
          "https://cdn.example.com/./textures/wood%20floor.png") = true ∧
      setURLModifier "models/" "https://cdn.example.com/"
          ["models/textures/wood floor.png"] none
          "https://cdn.example.com/./textures/wood%20floor.png" =
        (ResolvedURL.blobRef (normalizedAssetURL "models/" "https://cdn.example.com/"
          "https://cdn.example.com/./textures/wood%20floor.png"),
         [normalizedAssetURL "models/" "https://cdn.example.com/"
          "https://cdn.example.com/./textures/wood%20floor.png"])) ∧
    ((["models/textures/wood floor.png"] : List String).contains
        (normalizedAssetURL "models/" "https://cdn.example.com/"
          "https://elsewhere.org/other.bin") = false ∧
      setURLModifier "models/" "https://cdn.example.com/"
          ["models/textures/wood floor.png"] none "https://elsewhere.org/other.bin" =
        (ResolvedURL.network "https://elsewhere.org/other.bin", [])) ∧
    ((∀ c ∈ ("https://cdn.example.com/" : String).data, c ≠ '%') ∧
      (∀ c ∈ ("textures/a.png" : String).data, c ≠ '%') ∧
      normalizedAssetURL "models/" "https://cdn.example.com/"
          ("https://cdn.example.com/" ++ "./" ++ "textures/a.png") =
        "models/" ++ "textures/a.png") ∧
    outstandingBlobURLs
        (resolveAll "models/" "https://cdn.example.com/"
          ["models/textures/wood floor.png"]
          ["https://cdn.example.com/./textures/wood%20floor.png",
           "https://elsewhere.org/other.bin"]).2
        (resolveAll "models/" "https://cdn.example.com/"
          ["models/textures/wood floor.png"]
          ["https://cdn.example.com/./textures/wood%20floor.png",
           "https://elsewhere.org/other.bin"]).2 = [] := by
  have hhit : (["models/textures/wood floor.png"] : List String).contains
      (normalizedAssetURL "models/" "https://cdn.example.com/"
        "https://cdn.example.com/./textures/wood%20floor.png") = true := by decide
  have hmiss : (["models/textures/wood floor.png"] : List String).contains
      (normalizedAssetURL "models/" "https://cdn.example.com/"
        "https://elsewhere.org/other.bin") = false := by decide
  have hb : ∀ c ∈ ("https://cdn.example.com/" : String).data, c ≠ '%' := by decide
  have hr : ∀ c ∈ ("textures/a.png" : String).data, c ≠ '%' := by decide
  exact ⟨⟨hhit, asset_url_resolution.1 _ _ _ none _ hhit⟩,
         ⟨hmiss, asset_url_resolution.2.1 _ _ _ _ hmiss⟩,
         ⟨hb, hr, asset_url_resolution.2.2.1 _ _ _ hb hr⟩,
         asset_url_resolution.2.2.2 _ _ _ _⟩

/-! ### Load-failure handling (Viewer.load onLoad callback, src/viewer.js
lines 238-265, and the loadModel then/catch handlers of the hosting page) -/

/-- The parts of a parsed glTF result that the load callback inspects:
`gltf.scene`, the `gltf.scenes` list (with scene graphs as identifiers), and
`gltf.animations`. -/
structure GltfFile where
  scene : Option Nat
  scenes : List Nat
  animations : List Nat
deriving DecidableEq

/-- Outcome delivered to the `Viewer.load` callbacks by the loader: a parsed
file, or a network/parse failure routed to `reject`. -/
inductive LoadResult where
  | success (gltf : GltfFile)
  | failure (message : String)
deriving DecidableEq

/-- Shallow embedding of the `Viewer.load` promise: on loader failure the
promise rejects; on loader success the callback takes
`gltf.scene || gltf.scenes[0]`, throws (rejecting the promise, through the
parser promise chain) when no scene graph exists, and otherwise calls
`setContent(scene, clips)` and resolves — so the returned `Except` is `ok`
exactly when content was attached to the scene. -/
def viewerLoadContent (r : LoadResult) : Except String (Nat × List Nat) :=
  match r with
  | LoadResult.failure m => Except.error m
  | LoadResult.success g =>
    match g.scene.orElse (fun _ => g.scenes[0]?) with
    | none =>
      Except.error "This model contains no scene, and cannot be viewed here."
    | some sc => Except.ok (sc, g.animations)

/-- Observable outcome of one `loadModel` call of the hosting page. -/
structure LoadOutcome where
  loadingIndicatorHidden : Bool
  errorMessageShown : Bool
  contentSet : Option (Nat × List Nat)
deriving DecidableEq

/-- Shallow embedding of the `loadModel` then/catch handlers: the `then`
branch hides the loading indicator with the content already attached by
`setContent`; the `catch` branch reports the error (`console.error`) and
hides the loading indicator, and no content was attached. -/
def loadModel (r : LoadResult) : LoadOutcome :=
  match viewerLoadContent r with
  | Except.ok c =>
    { loadingIndicatorHidden := true, errorMessageShown := false, contentSet := some c }
  | Except.error _ =>
    { loadingIndicatorHidden := true, errorMessageShown := true, contentSet := none }

/-- Boolean success test on the load result. -/
def loadSucceeded : Except String (Nat × List Nat) → Bool
  | Except.ok _ => true
  | Except.error _ => false

/-- C9: for every load — malformed/failing assets and files with no scene
graph included — the loading indicator is hidden regardless of outcome,
content is attached exactly when the load succeeds unambiguously, every
failure is surfaced as a visible message with no partial asset left attached,
and in particular a parsed file with neither `gltf.scene` nor any entry in
`gltf.scenes` attaches nothing and reports the failure. -/
theorem load_failure_handling (r : LoadResult) :
    (loadModel r).loadingIndicatorHidden = true ∧
    (loadModel r).contentSet.isSome = loadSucceeded (viewerLoadContent r) ∧
    (loadSucceeded (viewerLoadContent r) = false →
      (loadModel r).errorMessageShown = true ∧ (loadModel r).contentSet = none) ∧
    (∀ g : GltfFile, r = LoadResult.success g → g.scene = none → g.scenes = [] →
      (loadModel r).contentSet = none ∧ (loadModel r).errorMessageShown = true) := by
  refine ⟨?_, ?_, ?_, ?_⟩
  · cases hv : viewerLoadContent r <;> simp [loadModel, hv]
  · cases hv : viewerLoadContent r <;> simp [loadModel, loadSucceeded, hv]
  · intro h
    cases hv : viewerLoadContent r with
    | ok c => rw [hv] at h; simp [loadSucceeded] at h
    | error m => simp [loadModel, hv]
  · intro g hg hscene hscenes
    subst hg
    have hv : viewerLoadContent (LoadResult.success g) =
        Except.error "This model contains no scene, and cannot be viewed here." := by
      simp [viewerLoadContent, hscene, hscenes, Option.orElse]
    simp [loadModel, hv]

/-- A parsed file with no scene graph at all, for the C9 witness. -/
def noSceneGltf : GltfFile := ⟨none, [], []⟩

/-- Witness for C9 at the no-scene-graph file. -/
theorem load_failure_handling_witness :
    (loadSucceeded (viewerLoadContent (LoadResult.success noSceneGltf)) = false ∧
      noSceneGltf.scene = none ∧ noSceneGltf.scenes = []) ∧
    ((loadModel (LoadResult.success noSceneGltf)).loadingIndicatorHidden = true ∧
      (loadModel (LoadResult.success noSceneGltf)).errorMessageShown = true ∧
      (loadModel (LoadResult.success noSceneGltf)).contentSet = none) := by
  have hth := load_failure_handling (LoadResult.success noSceneGltf)
  have hfail : loadSucceeded (viewerLoadContent (LoadResult.success noSceneGltf)) = false := by
    decide
  have hrest := hth.2.2.1 hfail
  exact ⟨⟨hfail, rfl, rfl⟩, ⟨hth.1, hrest.1, hrest.2⟩⟩
